import Mathlib

/-!
# pywpan: address marshalling and socket glue of `pywpan.c`

A shallow embedding of `get_addr_from_args`, `PyWPANSocket_init`,
`PyWPANSocket_dealloc` and `PyWPANSocket_sendto`, followed by theorems about them.

Conventions of the embedding.

* Python objects are values of `PyObj`; the CPython API functions the source calls
  (`PyLong_AsLong`, `PyArg_ParseTuple`, ...) are modelled after their documented behaviour.
* The C record `struct sockaddr_ieee802154` is modelled by its memory image: the two bytes of
  `pan_id` and the eight bytes of the `addr` union are byte lists, so that the byte order on
  the wire is visible.  Padding is not modelled.
* What the C standard leaves to the platform is a field of `Platform`: the width of `long`,
  the signedness of plain `char`, and the byte order of the host.
* System calls are answered by an oracle (`Kernel`) and recorded in a trace.
-/

namespace PyWPAN

/-! ## Machine level -/

/-- An octet. -/
abbrev Byte := Fin 256

/-- Platform parameters that the C source depends on. -/
structure Platform where
  /-- True when `long` has 64 bits (LP64), false when it has 32 bits (ILP32). -/
  long64 : Bool
  /-- Plain `char` is a signed type (x86 Linux) when true, unsigned (ARM Linux) otherwise. -/
  charSigned : Bool
  /-- Host byte order is big-endian when true. -/
  bigEndian : Bool
deriving DecidableEq, Repr

/-- Largest value of a C `long`. -/
def LONG_MAX (pf : Platform) : Int := if pf.long64 then 2 ^ 63 - 1 else 2 ^ 31 - 1

/-- Smallest value of a C `long`. -/
def LONG_MIN (pf : Platform) : Int := - LONG_MAX pf - 1

/-- Low octet of a 16-bit value. -/
def lo8 (x : Nat) : Byte := ⟨x % 256, Nat.mod_lt _ (by decide)⟩

/-- High octet of a 16-bit value. -/
def hi8 (x : Nat) : Byte := ⟨x / 256 % 256, Nat.mod_lt _ (by decide)⟩

/-- The cast `(uint16_t)x` of a `long`. -/
def to_uint16 (x : Int) : Nat := (x % 65536).toNat

/-- Byte swap of a 16-bit value. -/
def bswap_16 (x : Nat) : Nat := (x % 256) * 256 + x / 256 % 256

/-- The function `htole16` of `<endian.h>`: the identity on a little-endian host, a byte swap otherwise. -/
def htole16 (pf : Platform) (x : Nat) : Nat :=
  if pf.bigEndian then bswap_16 x else x % 65536

/-- Memory image of a `uint16_t` object holding `x`, in host byte order. -/
def store_u16 (pf : Platform) (x : Nat) : List Byte :=
  if pf.bigEndian then [hi8 x, lo8 x] else [lo8 x, hi8 x]

/-- Overwrite the leading bytes of a memory region with `src`. -/
def write_bytes (mem src : List Byte) : List Byte := src ++ mem.drop src.length

/-- Integer promotion of a plain `char` holding the octet `b` to a 32-bit `int`, given as its
two's-complement bit pattern: sign extension when `char` is signed. -/
def char_to_int (pf : Platform) (b : Byte) : Nat :=
  if pf.charSigned && decide (128 ≤ b.val) then 2 ^ 32 - 256 + b.val else b.val

/-- The shift `x << n` on 32-bit `int` bit patterns, as two's-complement machines compute it
(also for a negative left operand, where the C standard leaves the result open). -/
def int_shl (x n : Nat) : Nat := (x * 2 ^ n) % 2 ^ 32

/-- The expression `(addr_str[0] << 8) | (addr_str[1])` assigned to a `uint16_t`. -/
def addr16_of_chars (pf : Platform) (c0 c1 : Byte) : Nat :=
  (int_shl (char_to_int pf c0) 8 ||| char_to_int pf c1) % 65536

/-! ## Constants of the source and of the system headers -/

def PyWPAN_ADDR_NONE : Int := 0

def PyWPAN_ADDR_SHORT : Int := 2

def PyWPAN_ADDR_LONG : Int := 3

def IEEE802154_ADDR_LEN : Nat := 8

def MAX_PACKET_LEN : Nat := 127

/-- Address family of IEEE 802.15.4 sockets, from the Linux `<sys/socket.h>`. -/
def AF_IEEE802154 : Nat := 36

/-- Socket type of datagram sockets, from the Linux `<sys/socket.h>`. -/
def SOCK_DGRAM : Nat := 2

/-! ## Python objects and exceptions -/

/-- Python objects, as far as the extension module tells them apart.

* `int` is an instance of `int` or of a subclass (`PyLong_Check` holds), `bytes` and `tuple`
  likewise for `PyBytes_Check` and `PyTuple_Check`.
* `str` is a string; `utf8` is its UTF-8 encoding, which a string with lone surrogates does
  not have.
* `other` is any other object (a float, a memoryview, a user-defined class, ...).  `index` is
  the integer that the number protocol of the object converts it to, in the way
  `PyLong_AsLong` asks for it (`__index__`, and `__int__` on older interpreters), when the
  object has such a conversion.  `sbuf` is the memory that the format unit `s#` borrows from
  the object: it is there only for an object that exports a buffer through `bf_getbuffer`
  and has no `bf_releasebuffer` (a ctypes array is one); a memoryview, a bytearray or an
  `array.array` has a `bf_releasebuffer`, so `s#` refuses it and its `sbuf` is `none`, as it
  is for every object without the buffer protocol. -/
inductive PyObj where
  | none
  | int (v : Int)
  | bytes (data : List Byte)
  | str (utf8 : Option (List Byte))
  | tuple (items : List PyObj)
  | other (index : Option Int) (sbuf : Option (List Byte))

/-- The exceptions the module raises or meets. -/
inductive PyErr where
  | ValueError (msg : String)
  | TypeError
  | OverflowError
  | UnicodeEncodeError
  | OSError (errno : Int)
  | NotImplementedError (msg : String)
deriving DecidableEq, Repr

/-- Conversion of an integer value to a C `long`: `-1` and `OverflowError` when out of range. -/
def long_of_int (pf : Platform) (v : Int) : Int × Option PyErr :=
  if LONG_MIN pf ≤ v ∧ v ≤ LONG_MAX pf then (v, Option.none) else (-1, some PyErr.OverflowError)

/-- The API function `PyLong_AsLong`: the C `long` of an `int`; an object that is not an `int` is first
converted through its number protocol, and `-1` with `TypeError` is the answer when it has
none.  The second component is the exception raised, if any. -/
def PyLong_AsLong (pf : Platform) : PyObj → Int × Option PyErr
  | PyObj.int v => long_of_int pf v
  | PyObj.other (some v) _ => long_of_int pf v
  | _ => (-1, some PyErr.TypeError)

/-! ## The address record -/

/-- Memory image of `struct sockaddr_ieee802154`. -/
structure sockaddr_ieee802154 where
  family : Nat
  addr_type : Int
  /-- The two bytes of the `uint16_t pan_id` field. -/
  pan_id : List Byte
  /-- The eight bytes of the union `addr` (`along` overlaid with `ashort`). -/
  addr : List Byte
deriving DecidableEq, Repr

/-- What `get_addr_from_args` leaves behind. -/
structure AddrResult where
  /-- The function returned `addr` (true) or `NULL` (false). -/
  ret : Bool
  /-- Contents of `*so` on return. -/
  so : sockaddr_ieee802154
  /-- The error indicator on return. -/
  err : Option PyErr
  /-- Net change of the reference count of `addro`, the second tuple element. -/
  addro_refs : Int
deriving DecidableEq, Repr

/-- The operation `Py_INCREF` on a reference count. -/
def Py_INCREF (rc : Int) : Int := rc + 1

/-- The operation `Py_DECREF` on a reference count. -/
def Py_DECREF (rc : Int) : Int := rc - 1

def msg_shape : String := "addr parameter must be a tuple of size 2."

def msg_pan_id : String := "first element of addr must be between 0 and 65535"

def msg_short : String := "second element should be short address but value would overflow"

def msg_type : String := "second element of addr must be of type bytes, int or None"

def msg_length : String := "second element must be of length 0, 2 or 8"

/-- The body of `get_addr_from_args` after `Py_INCREF(addro)`: `rc` is the reference count
change so far, `e` the error indicator so far. -/
def fill_addr (pf : Platform) (pan_id : Int) (addro : PyObj) (so : sockaddr_ieee802154)
    (e : Option PyErr) (rc : Int) : AddrResult :=
  let so1 := { so with family := AF_IEEE802154,
                       pan_id := store_u16 pf (htole16 pf (to_uint16 pan_id)) }
  match addro with
  | PyObj.none => ⟨true, { so1 with addr_type := PyWPAN_ADDR_NONE }, e, Py_DECREF rc⟩
  | PyObj.int v =>
    let r := PyLong_AsLong pf (PyObj.int v)
    if r.1 < 0x0000 ∨ r.1 > 0xffff then
      ⟨false, so1, some (PyErr.ValueError msg_short), rc⟩
    else
      ⟨true, { so1 with addr_type := PyWPAN_ADDR_SHORT,
                        addr := write_bytes so1.addr (store_u16 pf (htole16 pf (to_uint16 r.1))) },
        e, Py_DECREF rc⟩
  | PyObj.bytes data =>
    if data.length = 0 then
      ⟨true, { so1 with addr_type := PyWPAN_ADDR_NONE }, e, Py_DECREF rc⟩
    else if h : data.length = 2 then
      let addr16 := addr16_of_chars pf (data.get ⟨0, by omega⟩) (data.get ⟨1, by omega⟩)
      ⟨true, { so1 with addr := write_bytes so1.addr (store_u16 pf (htole16 pf addr16)),
                        addr_type := PyWPAN_ADDR_SHORT }, e, Py_DECREF rc⟩
    else if data.length = 8 then
      ⟨true, { so1 with addr := write_bytes so1.addr (data.take 8),
                        addr_type := PyWPAN_ADDR_LONG }, e, Py_DECREF rc⟩
    else
      ⟨false, so1, some (PyErr.ValueError msg_length), Py_DECREF rc⟩
  | _ => ⟨false, so1, some (PyErr.ValueError msg_type), Py_DECREF rc⟩

/-- The function `get_addr_from_args(addr, so)`.  `addr` is an object, so the `addr == NULL` test of the
source never fires; `so` is the prior content of the record the caller passes. -/
def get_addr_from_args (pf : Platform) (addr : PyObj) (so : sockaddr_ieee802154) : AddrResult :=
  match addr with
  | PyObj.tuple [item0, addro] =>
    let r := PyLong_AsLong pf item0
    if r.1 < 0x0000 ∨ r.1 > 0xffff then
      ⟨false, so, some (PyErr.ValueError msg_pan_id), 0⟩
    else
      fill_addr pf r.1 addro so r.2 (Py_INCREF 0)
  | _ => ⟨false, so, some (PyErr.ValueError msg_shape), 0⟩

/-! ## System calls and the socket object -/

/-- The system calls the module issues, with their arguments.  The address length
`sizeof(sa)` of `sendto` is a constant of the record layout and is left out. -/
inductive SysCall where
  | socket (domain type protocol : Nat)
  | close (fd : Int)
  | sendto (fd : Int) (buf : List Byte) (len : Nat) (flags : Nat) (dest : sockaddr_ieee802154)
deriving DecidableEq, Repr

/-- The operating system as an oracle: the value a system call returns and the `errno` it
leaves when it fails. -/
structure Kernel where
  ret : SysCall → Int
  errno : SysCall → Int

/-- The struct `PyWPANSocketObject` without the object header. -/
structure PyWPANSocketObject where
  sock_fd : Int
deriving DecidableEq, Repr

/-- What `PyWPANSocket_init` leaves behind. -/
structure InitResult where
  /-- The `int` the function returned. -/
  ret : Int
  self : PyWPANSocketObject
  err : Option PyErr
  trace : List SysCall

/-- The function `PyWPANSocket_init(self, args, kwds)`; the arguments are not looked at. -/
def PyWPANSocket_init (k : Kernel) (self : PyWPANSocketObject) (trace : List SysCall) :
    InitResult :=
  let call := SysCall.socket AF_IEEE802154 SOCK_DGRAM 0
  let res := k.ret call
  if res < 0 then
    ⟨-1, self, some (PyErr.OSError (k.errno call)), trace ++ [call]⟩
  else
    ⟨0, { self with sock_fd := res }, Option.none, trace ++ [call]⟩

/-- The function `PyWPANSocket_dealloc(self)`. -/
def PyWPANSocket_dealloc (self : PyWPANSocketObject) (trace : List SysCall) : List SysCall :=
  trace ++ [SysCall.close self.sock_fd]

/-- The function `PyType_GenericAlloc`, the `tp_alloc` slot of the type: the object memory is zeroed. -/
def PyType_GenericAlloc : PyWPANSocketObject := ⟨0⟩

/-- One object lifetime as the interpreter drives it through the slots of
`PyWPANSocketType`: `tp_alloc`, then `tp_init`, then `tp_dealloc` — when the last reference
goes away, which is at once when `tp_init` failed.  The result is the system call trace. -/
def socket_lifetime (k : Kernel) : List SysCall :=
  let r := PyWPANSocket_init k PyType_GenericAlloc []
  PyWPANSocket_dealloc r.self r.trace

/-- The format unit `s#` of `PyArg_ParseTuple` (`convertsimple` in CPython's `getargs.c`):
a string is handed over as its UTF-8 encoding and raises `UnicodeEncodeError` when it has
none; any other object must export a buffer through `bf_getbuffer` and have no
`bf_releasebuffer`, which `bytes` does, and is refused with `TypeError` otherwise. -/
def parse_s_hash : PyObj → Except PyErr (List Byte)
  | PyObj.str (some u) => Except.ok u
  | PyObj.str Option.none => Except.error PyErr.UnicodeEncodeError
  | PyObj.bytes d => Except.ok d
  | PyObj.other _ (some b) => Except.ok b
  | _ => Except.error PyErr.TypeError

/-- The call `PyArg_ParseTuple(args, "s#O", &buf, &bufsize, &addr)` on the argument tuple of
the method: `args` must hold exactly two objects, or `TypeError` is raised; `bufsize` is the
length of the buffer returned. -/
def PyArg_ParseTuple_s_hash_O : PyObj → Except PyErr (List Byte × PyObj)
  | PyObj.tuple [a, addr] =>
    match parse_s_hash a with
    | Except.ok buf => Except.ok (buf, addr)
    | Except.error e => Except.error e
  | _ => Except.error PyErr.TypeError

/-- What `PyWPANSocket_sendto` leaves behind. -/
structure SendResult where
  /-- The Python integer returned, or nothing for `NULL`. -/
  ret : Option Int
  err : Option PyErr
  trace : List SysCall

/-- The function `PyWPANSocket_sendto(self, args)`.  `sa` is the content of the local record before it
is filled, which the source does not set. -/
def PyWPANSocket_sendto (pf : Platform) (k : Kernel) (self : PyWPANSocketObject)
    (args : PyObj) (sa : sockaddr_ieee802154) (trace : List SysCall) : SendResult :=
  match PyArg_ParseTuple_s_hash_O args with
  | Except.error e => ⟨Option.none, some e, trace⟩
  | Except.ok (buf, addr) =>
    let a := get_addr_from_args pf addr sa
    if !a.ret then
      ⟨Option.none, a.err, trace⟩
    else
      let call := SysCall.sendto self.sock_fd buf buf.length 0 a.so
      let res := k.ret call
      if res < 0 then
        ⟨Option.none, some (PyErr.OSError (k.errno call)), trace ++ [call]⟩
      else
        ⟨some res, a.err, trace ++ [call]⟩

/-- The function `PyWPANSocket_recvfrom(self)`: not implemented in the source. -/
def PyWPANSocket_recvfrom : Option PyObj × Option PyErr :=
  (Option.none, some (PyErr.NotImplementedError "recvfrom() not implemented yet"))

/-! ## The decoding direction

The source has no decoder (`recvfrom` is a stub), so the address value and the decoder are
taken from the specification. -/

/-- Modelled from the spec: the `value` of a `WpanAddress` together with its `mode`, as the
tagged variant `None`, `Short` (16-bit value) or `Long` (8 raw bytes); the source has no such
type. -/
inductive AddressValue where
  | None
  | Short (v : Nat)
  | Long (bytes : List Byte)
deriving DecidableEq, Repr

/-- Modelled from the spec: `WpanAddress`, a PAN identifier and an address value whose tag is
the mode; the source has no such type. -/
structure WpanAddress where
  pan_id : Nat
  value : AddressValue
deriving DecidableEq, Repr

/-- Modelled from the spec: validity of a `WpanAddress` — the PAN identifier and a short
value fit 16 bits, a long value has 8 bytes. -/
def WpanAddress.valid (a : WpanAddress) : Prop :=
  a.pan_id ≤ 0xFFFF ∧
  match a.value with
  | AddressValue.None => True
  | AddressValue.Short v => v ≤ 0xFFFF
  | AddressValue.Long bs => bs.length = 8

/-- Modelled from the spec: the caller-facing pair `(pan_id, address)` that describes a
`WpanAddress` — absent, integer, or 8-byte sequence. -/
def WpanAddress.toArg (a : WpanAddress) : PyObj :=
  PyObj.tuple [PyObj.int a.pan_id,
    match a.value with
    | AddressValue.None => PyObj.none
    | AddressValue.Short v => PyObj.int v
    | AddressValue.Long bs => PyObj.bytes bs]

/-- Little-endian reading of the first two bytes of a memory region. -/
def read_le16 (mem : List Byte) : Nat :=
  (mem.getD 0 0).val + 256 * (mem.getD 1 0).val

/-- Modelled from the spec: `decode` of section 4.1, missing from the source
(`PyWPANSocket_recvfrom` is a stub): dispatch on `addr_type`, `0` gives mode `None`, `2` the
little-endian reading of two bytes, `3` the eight raw bytes, anything else fails with
`UnknownAddressTypeError` (here `none`); the PAN identifier is read little-endian. -/
def decode (r : sockaddr_ieee802154) : Option WpanAddress :=
  if r.addr_type = 0 then some ⟨read_le16 r.pan_id, AddressValue.None⟩
  else if r.addr_type = 2 then some ⟨read_le16 r.pan_id, AddressValue.Short (read_le16 r.addr)⟩
  else if r.addr_type = 3 then some ⟨read_le16 r.pan_id, AddressValue.Long (r.addr.take 8)⟩
  else Option.none

/-- The number of bytes of the `addr` union that carry the address for a given `addr_type`:
two for a short address, eight for a long one, none otherwise. -/
def addr_len (addr_type : Int) : Nat :=
  if addr_type = PyWPAN_ADDR_SHORT then 2
  else if addr_type = PyWPAN_ADDR_LONG then IEEE802154_ADDR_LEN
  else 0

/-- The argument shape as the specification documents it: a pair of an integer PAN
identifier in `0..=65535` and an address that is `None`, an integer in `0..=65535`, or a byte
sequence of length 0, 2 or 8. -/
def documented_shape : PyObj → Prop
  | PyObj.tuple [PyObj.int p, a] =>
    (0 ≤ p ∧ p ≤ 0xFFFF) ∧
    match a with
    | PyObj.none => True
    | PyObj.int v => 0 ≤ v ∧ v ≤ 0xFFFF
    | PyObj.bytes d => d.length = 0 ∨ d.length = 2 ∨ d.length = 8
    | _ => False
  | _ => False

/-- The first elements the code accepts as PAN identifier: an integer in `0..=65535`, or an
object that is not an integer and whose number protocol converts it to one in that range. -/
def accepted_pan_id : PyObj → Prop
  | PyObj.int p => 0 ≤ p ∧ p ≤ 0xFFFF
  | PyObj.other (some p) _ => 0 ≤ p ∧ p ≤ 0xFFFF
  | _ => False

/-- The second elements the code accepts as address value. -/
def accepted_address : PyObj → Prop
  | PyObj.none => True
  | PyObj.int v => 0 ≤ v ∧ v ≤ 0xFFFF
  | PyObj.bytes d => d.length = 0 ∨ d.length = 2 ∨ d.length = 8
  | _ => False

/-- A record content and a platform used in the examples. -/
def so_zero : sockaddr_ieee802154 := ⟨0, 0, [0, 0], [0, 0, 0, 0, 0, 0, 0, 0]⟩

def so_ones : sockaddr_ieee802154 := ⟨0, 0, [0, 0], [1, 1, 1, 1, 1, 1, 1, 1]⟩

/-- x86-64 Linux: LP64, signed `char`, little-endian. -/
def x86_64 : Platform := ⟨true, true, false⟩

/-- AArch64 Linux: LP64, unsigned `char`, little-endian. -/
def aarch64 : Platform := ⟨true, false, false⟩

/-- A kernel without IEEE 802.15.4 support: every call fails with `EAFNOSUPPORT`. -/
def kernel_no_wpan : Kernel := ⟨fun _ => -1, fun _ => 97⟩

theorem bswap_16_bytes (x : Nat) :
    bswap_16 x / 256 % 256 = x % 256 ∧ bswap_16 x % 256 = x / 256 % 256 := by
  unfold bswap_16
  have hr : x % 256 < 256 := Nat.mod_lt _ (by decide)
  have hq : x / 256 % 256 < 256 := Nat.mod_lt _ (by decide)
  generalize x % 256 = r at hr
  generalize x / 256 % 256 = q at hq
  constructor <;> omega

theorem store_u16_htole16 (pf : Platform) (x : Nat) :
    store_u16 pf (htole16 pf x) = [lo8 x, hi8 x] := by
  unfold store_u16 htole16 lo8 hi8
  cases pf.bigEndian
  · simp only [Bool.false_eq_true, if_false, List.cons.injEq, Fin.mk.injEq, and_true]
    constructor <;> omega
  · simp only [if_true, List.cons.injEq, Fin.mk.injEq, and_true]
    exact bswap_16_bytes x

theorem lo8_to_uint16 (x : Int) : ((lo8 (to_uint16 x)).val : Int) = x % 256 := by
  unfold lo8 to_uint16
  simp only
  omega

theorem hi8_to_uint16 (x : Int) (h0 : 0 ≤ x) (h1 : x ≤ 0xFFFF) :
    ((hi8 (to_uint16 x)).val : Int) = x / 256 := by
  unfold hi8 to_uint16
  simp only
  omega

theorem long_of_int_fst_range (pf : Platform) (v : Int) :
    (long_of_int pf v).1 < 0 ∨ (long_of_int pf v).1 > 65535 ↔ ¬ (0 ≤ v ∧ v ≤ 0xFFFF) := by
  unfold long_of_int LONG_MIN LONG_MAX
  cases pf.long64 <;> simp only [Bool.false_eq_true, if_false, if_true] <;> split <;>
    simp only <;> omega

theorem long_of_int_in_range (pf : Platform) (v : Int) (h0 : 0 ≤ v) (h1 : v ≤ 0xFFFF) :
    long_of_int pf v = (v, Option.none) := by
  unfold long_of_int LONG_MIN LONG_MAX
  cases pf.long64 <;> simp only [Bool.false_eq_true, if_false, if_true] <;>
    rw [if_pos (by omega)]

/-! ## Bit-level lemmas for the two-byte form -/

theorem or_all_ones (k : Nat) (hk : k < 2 ^ 24) :
    2 ^ 8 * k ||| 2 ^ 8 * (2 ^ 24 - 1) = 2 ^ 8 * (2 ^ 24 - 1) := by
  apply Nat.eq_of_testBit_eq
  intro j
  simp only [Nat.testBit_or, Nat.testBit_mul_pow_two, Nat.testBit_two_pow_sub_one]
  by_cases hj : j ≥ 8
  · by_cases h24 : j - 8 < 24
    · simp [hj, h24]
    · have hlt : k < 2 ^ (j - 8) :=
        Nat.lt_of_lt_of_le hk (Nat.pow_le_pow_right (by decide) (by omega))
      simp [hj, h24, Nat.testBit_lt_two_pow hlt]
  · simp [hj]

theorem shl8_aligned (pf : Platform) (c0 : Byte) :
    ∃ k, k < 2 ^ 24 ∧ int_shl (char_to_int pf c0) 8 = 2 ^ 8 * k ∧
      2 ^ 8 * k % 65536 = c0.val * 256 := by
  have hc := c0.isLt
  unfold int_shl char_to_int
  by_cases h : (pf.charSigned && decide (128 ≤ c0.val)) = true
  · rw [if_pos h]
    refine ⟨2 ^ 24 - 256 + c0.val, ?_, ?_, ?_⟩ <;> omega
  · rw [if_neg h]
    refine ⟨c0.val, ?_, ?_, ?_⟩ <;> omega

theorem addr16_of_chars_plain (pf : Platform) (c0 c1 : Byte)
    (h : pf.charSigned = false ∨ c1.val < 128) :
    addr16_of_chars pf c0 c1 = c0.val * 256 + c1.val := by
  obtain ⟨k, _, hk, hm⟩ := shl8_aligned pf c0
  have hc1 : char_to_int pf c1 = c1.val := by
    unfold char_to_int
    rcases h with h | h
    · simp [h]
    · rw [if_neg]; simp; intro _; omega
  have hlt : c1.val < 2 ^ 8 := c1.isLt
  unfold addr16_of_chars
  rw [hc1, hk, ← Nat.mul_add_lt_is_or hlt]
  omega

theorem addr16_of_chars_sign_extended (pf : Platform) (c0 c1 : Byte)
    (hs : pf.charSigned = true) (h : 128 ≤ c1.val) :
    addr16_of_chars pf c0 c1 = 0xFF00 + c1.val := by
  obtain ⟨k, hk24, hk, _⟩ := shl8_aligned pf c0
  have hlt : c1.val < 2 ^ 8 := c1.isLt
  have hc1 : char_to_int pf c1 = 2 ^ 8 * (2 ^ 24 - 1) ||| c1.val := by
    rw [← Nat.mul_add_lt_is_or hlt]
    unfold char_to_int
    simp [hs, h]
  unfold addr16_of_chars
  rw [hc1, hk, ← Nat.lor_assoc, or_all_ones k hk24, ← Nat.mul_add_lt_is_or hlt]
  omega

/-! ## Unfolding lemmas for `get_addr_from_args` -/

theorem get_addr_pair (pf : Platform) (item0 addro : PyObj) (so : sockaddr_ieee802154) :
    get_addr_from_args pf (PyObj.tuple [item0, addro]) so =
      if (PyLong_AsLong pf item0).1 < 0 ∨ (PyLong_AsLong pf item0).1 > 65535 then
        ⟨false, so, some (PyErr.ValueError msg_pan_id), 0⟩
      else
        fill_addr pf (PyLong_AsLong pf item0).1 addro so (PyLong_AsLong pf item0).2
          (Py_INCREF 0) := rfl

theorem get_addr_int_pan (pf : Platform) (p : Int) (addro : PyObj) (so : sockaddr_ieee802154)
    (h0 : 0 ≤ p) (h1 : p ≤ 0xFFFF) :
    get_addr_from_args pf (PyObj.tuple [PyObj.int p, addro]) so =
      fill_addr pf p addro so Option.none (Py_INCREF 0) := by
  rw [get_addr_pair]
  simp only [PyLong_AsLong, long_of_int_in_range pf p h0 h1]
  rw [if_neg (by omega)]

theorem get_addr_int_pan_bad (pf : Platform) (p : Int) (addro : PyObj)
    (so : sockaddr_ieee802154) (h : p < 0 ∨ p > 0xFFFF) :
    get_addr_from_args pf (PyObj.tuple [PyObj.int p, addro]) so =
      ⟨false, so, some (PyErr.ValueError msg_pan_id), 0⟩ := by
  rw [get_addr_pair]
  simp only [PyLong_AsLong]
  rw [if_pos ((long_of_int_fst_range pf p).mpr (by omega))]

theorem fill_addr_int_ok (pf : Platform) (p v : Int) (so : sockaddr_ieee802154)
    (e : Option PyErr) (rc : Int) (h0 : 0 ≤ v) (h1 : v ≤ 0xFFFF) :
    fill_addr pf p (PyObj.int v) so e rc =
      ⟨true, ⟨AF_IEEE802154, PyWPAN_ADDR_SHORT, [lo8 (to_uint16 p), hi8 (to_uint16 p)],
              write_bytes so.addr [lo8 (to_uint16 v), hi8 (to_uint16 v)]⟩, e, Py_DECREF rc⟩ := by
  simp only [fill_addr, PyLong_AsLong, long_of_int_in_range pf v h0 h1, store_u16_htole16]
  rw [if_neg (by omega)]

theorem fill_addr_int_bad (pf : Platform) (p v : Int) (so : sockaddr_ieee802154)
    (e : Option PyErr) (rc : Int) (h : ¬ (0 ≤ v ∧ v ≤ 0xFFFF)) :
    fill_addr pf p (PyObj.int v) so e rc =
      ⟨false, ⟨AF_IEEE802154, so.addr_type, [lo8 (to_uint16 p), hi8 (to_uint16 p)], so.addr⟩,
        some (PyErr.ValueError msg_short), rc⟩ := by
  simp only [fill_addr, PyLong_AsLong, store_u16_htole16]
  rw [if_pos ((long_of_int_fst_range pf v).mpr h)]

theorem fill_addr_none (pf : Platform) (p : Int) (so : sockaddr_ieee802154)
    (e : Option PyErr) (rc : Int) :
    fill_addr pf p PyObj.none so e rc =
      ⟨true, ⟨AF_IEEE802154, PyWPAN_ADDR_NONE, [lo8 (to_uint16 p), hi8 (to_uint16 p)], so.addr⟩,
        e, Py_DECREF rc⟩ := by
  simp only [fill_addr, store_u16_htole16]

theorem fill_addr_bytes0 (pf : Platform) (p : Int) (so : sockaddr_ieee802154)
    (e : Option PyErr) (rc : Int) :
    fill_addr pf p (PyObj.bytes []) so e rc = fill_addr pf p PyObj.none so e rc := by
  simp only [fill_addr, List.length_nil, if_true]

theorem fill_addr_bytes2 (pf : Platform) (p : Int) (b0 b1 : Byte) (so : sockaddr_ieee802154)
    (e : Option PyErr) (rc : Int) :
    fill_addr pf p (PyObj.bytes [b0, b1]) so e rc =
      ⟨true, ⟨AF_IEEE802154, PyWPAN_ADDR_SHORT, [lo8 (to_uint16 p), hi8 (to_uint16 p)],
              write_bytes so.addr [lo8 (addr16_of_chars pf b0 b1),
                                   hi8 (addr16_of_chars pf b0 b1)]⟩, e, Py_DECREF rc⟩ := by
  simp [fill_addr, store_u16_htole16]

theorem fill_addr_bytes8 (pf : Platform) (p : Int) (s : List Byte) (so : sockaddr_ieee802154)
    (e : Option PyErr) (rc : Int) (h : s.length = 8) :
    fill_addr pf p (PyObj.bytes s) so e rc =
      ⟨true, ⟨AF_IEEE802154, PyWPAN_ADDR_LONG, [lo8 (to_uint16 p), hi8 (to_uint16 p)],
              write_bytes so.addr s⟩, e, Py_DECREF rc⟩ := by
  have ht : s.take 8 = s := by rw [← h]; exact List.take_length s
  simp [fill_addr, store_u16_htole16, h, ht]

theorem fill_addr_bytes_bad (pf : Platform) (p : Int) (s : List Byte)
    (so : sockaddr_ieee802154) (e : Option PyErr) (rc : Int)
    (h0 : s.length ≠ 0) (h2 : s.length ≠ 2) (h8 : s.length ≠ 8) :
    fill_addr pf p (PyObj.bytes s) so e rc =
      ⟨false, ⟨AF_IEEE802154, so.addr_type, [lo8 (to_uint16 p), hi8 (to_uint16 p)], so.addr⟩,
        some (PyErr.ValueError msg_length), Py_DECREF rc⟩ := by
  simp [fill_addr, store_u16_htole16, h0, h2, h8]

theorem take_write_bytes (mem src : List Byte) :
    (write_bytes mem src).take src.length = src := by
  simp [write_bytes]

theorem fill_addr_err_ne_pan (pf : Platform) (p : Int) (a : PyObj)
    (so : sockaddr_ieee802154) (rc : Int) :
    (fill_addr pf p a so Option.none rc).err ≠ some (PyErr.ValueError msg_pan_id) := by
  cases a <;> simp only [fill_addr] <;> (try split_ifs) <;>
    simp [msg_pan_id, msg_short, msg_type, msg_length]

theorem PyLong_AsLong_range_iff (pf : Platform) (p : PyObj) :
    ¬ ((PyLong_AsLong pf p).1 < 0 ∨ (PyLong_AsLong pf p).1 > 65535) ↔ accepted_pan_id p := by
  cases p with
  | int v => simp only [PyLong_AsLong, accepted_pan_id, long_of_int_fst_range, not_not]
  | other index sbuf =>
    cases index with
    | none => simp [PyLong_AsLong, accepted_pan_id]
    | some v => simp only [PyLong_AsLong, accepted_pan_id, long_of_int_fst_range, not_not]
  | _ => simp [PyLong_AsLong, accepted_pan_id]

theorem fill_addr_type_error (pf : Platform) (p : Int) (a : PyObj) (so : sockaddr_ieee802154)
    (e : Option PyErr) (rc : Int)
    (hnone : a ≠ PyObj.none) (hint : ∀ v, a ≠ PyObj.int v) (hbytes : ∀ d, a ≠ PyObj.bytes d) :
    fill_addr pf p a so e rc =
      ⟨false, ⟨AF_IEEE802154, so.addr_type, [lo8 (to_uint16 p), hi8 (to_uint16 p)], so.addr⟩,
        some (PyErr.ValueError msg_type), Py_DECREF rc⟩ := by
  cases a with
  | none => exact absurd rfl hnone
  | int v => exact absurd rfl (hint v)
  | bytes d => exact absurd rfl (hbytes d)
  | _ => simp only [fill_addr, store_u16_htole16]

theorem fill_addr_ret_iff (pf : Platform) (p : Int) (a : PyObj) (so : sockaddr_ieee802154)
    (e : Option PyErr) (rc : Int) :
    (fill_addr pf p a so e rc).ret = true ↔ accepted_address a := by
  cases a with
  | none => simp [fill_addr_none, accepted_address]
  | int v =>
    by_cases hv : 0 ≤ v ∧ v ≤ 0xFFFF
    · simp [fill_addr_int_ok pf p v so e rc hv.1 hv.2, accepted_address, hv.1, hv.2]
    · simp only [fill_addr_int_bad pf p v so e rc hv, accepted_address, Bool.false_eq_true,
        false_iff]
      exact hv
  | bytes d =>
    by_cases h0 : d.length = 0
    · have hd : d = [] := List.eq_nil_of_length_eq_zero h0
      subst hd
      simp [fill_addr_bytes0, fill_addr_none, accepted_address]
    · by_cases h2 : d.length = 2
      · match d, h2 with
        | [b0, b1], _ => simp [fill_addr_bytes2, accepted_address]
      · by_cases h8 : d.length = 8
        · simp [fill_addr_bytes8 pf p d so e rc h8, accepted_address, h8]
        · simp [fill_addr_bytes_bad pf p d so e rc h0 h2 h8, accepted_address, h0, h2, h8]
  | str u => simp [fill_addr, accepted_address]
  | tuple items => simp [fill_addr, accepted_address]
  | other index sbuf => simp [fill_addr, accepted_address]

theorem get_addr_not_pair (pf : Platform) (x : PyObj) (so : sockaddr_ieee802154)
    (h : ∀ p a, x ≠ PyObj.tuple [p, a]) :
    get_addr_from_args pf x so = ⟨false, so, some (PyErr.ValueError msg_shape), 0⟩ := by
  unfold get_addr_from_args
  split
  · exact absurd rfl (h _ _)
  · rfl

theorem get_addr_ret_iff (pf : Platform) (x : PyObj) (so : sockaddr_ieee802154) :
    (get_addr_from_args pf x so).ret = true ↔
      ∃ p a, x = PyObj.tuple [p, a] ∧ accepted_pan_id p ∧ accepted_address a := by
  by_cases hx : ∃ p a, x = PyObj.tuple [p, a]
  · obtain ⟨p, a, rfl⟩ := hx
    rw [get_addr_pair]
    by_cases hp : (PyLong_AsLong pf p).1 < 0 ∨ (PyLong_AsLong pf p).1 > 65535
    · rw [if_pos hp]
      have hnp : ¬ accepted_pan_id p := fun h => (PyLong_AsLong_range_iff pf p).mpr h hp
      constructor
      · intro h; exact absurd h (by simp)
      · rintro ⟨p', a', heq, hp', _⟩
        simp only [PyObj.tuple.injEq, List.cons.injEq, and_true] at heq
        rw [← heq.1] at hp'
        exact absurd hp' hnp
    · rw [if_neg hp, fill_addr_ret_iff]
      have hap : accepted_pan_id p := (PyLong_AsLong_range_iff pf p).mp hp
      constructor
      · intro h; exact ⟨p, a, rfl, hap, h⟩
      · rintro ⟨p', a', heq, _, ha'⟩
        simp only [PyObj.tuple.injEq, List.cons.injEq, and_true] at heq
        rw [← heq.2] at ha'
        exact ha'
  · have hx' : ∀ p a, x ≠ PyObj.tuple [p, a] := fun p a h => hx ⟨p, a, h⟩
    rw [get_addr_not_pair pf x so hx']
    constructor
    · intro h; exact absurd h (by simp)
    · rintro ⟨p, a, h, _⟩; exact absurd h (hx' p a)

theorem documented_shape_accepted (x : PyObj) (h : documented_shape x) :
    ∃ p a, x = PyObj.tuple [p, a] ∧ accepted_pan_id p ∧ accepted_address a := by
  unfold documented_shape at h
  split at h
  · rename_i p a
    refine ⟨PyObj.int p, a, rfl, h.1, ?_⟩
    have h2 := h.2
    unfold accepted_address
    split at h2 <;> simp_all
  · exact absurd h id

theorem fill_addr_refs (pf : Platform) (p : Int) (a : PyObj) (so : sockaddr_ieee802154)
    (e : Option PyErr) (rc : Int) :
    (fill_addr pf p a so e rc).addro_refs =
      if (fill_addr pf p a so e rc).err = some (PyErr.ValueError msg_short) ∧
          (fill_addr pf p a so e rc).ret = false
      then rc else Py_DECREF rc := by
  cases a with
  | int v =>
    by_cases hv : 0 ≤ v ∧ v ≤ 0xFFFF
    · simp [fill_addr_int_ok pf p v so e rc hv.1 hv.2]
    · simp [fill_addr_int_bad pf p v so e rc hv]
  | bytes d =>
    by_cases h0 : d.length = 0
    · have hd : d = [] := List.eq_nil_of_length_eq_zero h0
      subst hd
      simp [fill_addr_bytes0, fill_addr_none]
    · by_cases h2 : d.length = 2
      · match d, h2 with
        | [b0, b1], _ => simp [fill_addr_bytes2]
      · by_cases h8 : d.length = 8
        · simp [fill_addr_bytes8 pf p d so e rc h8]
        · simp [fill_addr_bytes_bad pf p d so e rc h0 h2 h8, msg_short, msg_length]
  | none => simp [fill_addr_none]
  | str u => simp [fill_addr, msg_short, msg_type]
  | tuple items => simp [fill_addr, msg_short, msg_type]
  | other index sbuf => simp [fill_addr, msg_short, msg_type]

theorem fill_addr_prior (pf : Platform) (p : Int) (a : PyObj) (so1 so2 : sockaddr_ieee802154)
    (e : Option PyErr) (rc : Int) :
    (fill_addr pf p a so1 e rc).ret = (fill_addr pf p a so2 e rc).ret ∧
    (fill_addr pf p a so1 e rc).err = (fill_addr pf p a so2 e rc).err ∧
    (fill_addr pf p a so1 e rc).so.family = (fill_addr pf p a so2 e rc).so.family ∧
    (fill_addr pf p a so1 e rc).so.pan_id = (fill_addr pf p a so2 e rc).so.pan_id ∧
    ((fill_addr pf p a so1 e rc).ret = true →
      (fill_addr pf p a so1 e rc).so.addr_type = (fill_addr pf p a so2 e rc).so.addr_type ∧
      (fill_addr pf p a so1 e rc).so.addr.take (addr_len (fill_addr pf p a so1 e rc).so.addr_type)
        = (fill_addr pf p a so2 e rc).so.addr.take
            (addr_len (fill_addr pf p a so1 e rc).so.addr_type) ∧
      (fill_addr pf p a so1 e rc).so.addr.drop (addr_len (fill_addr pf p a so1 e rc).so.addr_type)
        = so1.addr.drop (addr_len (fill_addr pf p a so1 e rc).so.addr_type)) := by
  have hS : addr_len PyWPAN_ADDR_SHORT = 2 := rfl
  have hL : addr_len PyWPAN_ADDR_LONG = 8 := rfl
  have hN : addr_len PyWPAN_ADDR_NONE = 0 := rfl
  cases a with
  | int v =>
    by_cases hv : 0 ≤ v ∧ v ≤ 0xFFFF
    · simp [fill_addr_int_ok pf p v _ e rc hv.1 hv.2, hS, write_bytes]
    · simp [fill_addr_int_bad pf p v _ e rc hv]
  | bytes d =>
    by_cases h0 : d.length = 0
    · have hd : d = [] := List.eq_nil_of_length_eq_zero h0
      subst hd
      simp [fill_addr_bytes0, fill_addr_none, hN]
    · by_cases h2 : d.length = 2
      · match d, h2 with
        | [b0, b1], _ => simp [fill_addr_bytes2, hS, write_bytes]
      · by_cases h8 : d.length = 8
        · simp [fill_addr_bytes8 pf p d _ e rc h8, hL, write_bytes, h8]
        · simp [fill_addr_bytes_bad pf p d _ e rc h0 h2 h8]
  | none => simp [fill_addr_none, hN]
  | str u => simp [fill_addr]
  | tuple items => simp [fill_addr]
  | other index sbuf => simp [fill_addr]

theorem read_le16_bytes (n : Nat) (h : n ≤ 0xFFFF) (rest : List Byte) :
    read_le16 (lo8 (to_uint16 (n : Int)) :: hi8 (to_uint16 (n : Int)) :: rest) = n := by
  unfold read_le16 lo8 hi8 to_uint16
  simp only [List.getD_cons_zero, List.getD_cons_succ]
  omega

/-! ## Theorems -/

/-- C1: integer short-address form.  With a PAN identifier `p` in `0..=0xFFFF` and an integer
address `v`, the call succeeds exactly when `0 ≤ v ≤ 0xFFFF`; it then leaves no error, the
family tag, `addr_type = 2`, PAN bytes `[p mod 256, p div 256]` and address bytes 0..1
`[v mod 256, v div 256]`; otherwise (also when `v` does not fit a C `long`) it fails with the
short-address overflow message. -/
theorem short_int_form (pf : Platform) (so : sockaddr_ieee802154) (p v : Int)
    (hp0 : 0 ≤ p) (hp1 : p ≤ 0xFFFF) :
    ((get_addr_from_args pf (PyObj.tuple [PyObj.int p, PyObj.int v]) so).ret = true ↔
        (0 ≤ v ∧ v ≤ 0xFFFF)) ∧
    ((0 ≤ v ∧ v ≤ 0xFFFF) →
      (get_addr_from_args pf (PyObj.tuple [PyObj.int p, PyObj.int v]) so).err = Option.none ∧
      (get_addr_from_args pf (PyObj.tuple [PyObj.int p, PyObj.int v]) so).so.family
        = AF_IEEE802154 ∧
      (get_addr_from_args pf (PyObj.tuple [PyObj.int p, PyObj.int v]) so).so.addr_type = 2 ∧
      (get_addr_from_args pf (PyObj.tuple [PyObj.int p, PyObj.int v]) so).so.pan_id.map
        (fun b => (b.val : Int)) = [p % 256, p / 256] ∧
      ((get_addr_from_args pf (PyObj.tuple [PyObj.int p, PyObj.int v]) so).so.addr.take 2).map
        (fun b => (b.val : Int)) = [v % 256, v / 256]) ∧
    (¬ (0 ≤ v ∧ v ≤ 0xFFFF) →
      (get_addr_from_args pf (PyObj.tuple [PyObj.int p, PyObj.int v]) so).ret = false ∧
      (get_addr_from_args pf (PyObj.tuple [PyObj.int p, PyObj.int v]) so).err
        = some (PyErr.ValueError
            "second element should be short address but value would overflow")) := by
  rw [get_addr_int_pan pf p _ so hp0 hp1]
  by_cases hv : 0 ≤ v ∧ v ≤ 0xFFFF
  · rw [fill_addr_int_ok pf p v so _ _ hv.1 hv.2]
    simp only [hv, and_self, true_iff, forall_const, not_true_eq_false, false_implies,
      and_true, true_and, write_bytes, List.map_cons, List.map_nil, lo8_to_uint16,
      hi8_to_uint16 p hp0 hp1, hi8_to_uint16 v hv.1 hv.2, List.length_cons, List.length_nil,
      List.cons_append, List.nil_append, List.take_succ_cons, List.take_zero]
    rfl
  · rw [fill_addr_int_bad pf p v so _ _ hv]
    simp only [hv, Bool.false_eq_true, false_iff, not_false_eq_true, false_implies,
      forall_const, true_and, msg_short]

/-- Witness of C1: `encode((0x1234, 0xABCD))` on x86-64 gives PAN bytes `[0x34, 0x12]` and
address bytes `[0xCD, 0xAB]`. -/
theorem short_int_form_witness :
    (get_addr_from_args x86_64 (PyObj.tuple [PyObj.int 0x1234, PyObj.int 0xABCD])
        so_zero).so.addr_type = 2 ∧
    (get_addr_from_args x86_64 (PyObj.tuple [PyObj.int 0x1234, PyObj.int 0xABCD])
        so_zero).so.pan_id.map (fun b => (b.val : Int)) = [0x34, 0x12] ∧
    ((get_addr_from_args x86_64 (PyObj.tuple [PyObj.int 0x1234, PyObj.int 0xABCD])
        so_zero).so.addr.take 2).map (fun b => (b.val : Int)) = [0xCD, 0xAB] :=
  have h := (short_int_form x86_64 so_zero 0x1234 0xABCD (by decide) (by decide)).2.1
    ⟨by decide, by decide⟩
  ⟨h.2.2.1, h.2.2.2.1, h.2.2.2.2⟩

/-- C2 (the code at the failing input): on a platform whose plain `char` is signed, the byte
sequence `[0x01, 0x80]` is accepted as a short address but the record holds the address
bytes `[0x80, 0xFF]`, the wire value `0xFF80`, and not `[0x80, 0x01]`, the big-endian
reading `0x0180` of the input: the second byte is sign-extended before the bitwise or. -/
theorem two_byte_form_signed_char :
    (get_addr_from_args x86_64 (PyObj.tuple [PyObj.int 1, PyObj.bytes [0x01, 0x80]])
        so_zero).ret = true ∧
    (get_addr_from_args x86_64 (PyObj.tuple [PyObj.int 1, PyObj.bytes [0x01, 0x80]])
        so_zero).so.addr_type = 2 ∧
    (get_addr_from_args x86_64 (PyObj.tuple [PyObj.int 1, PyObj.bytes [0x01, 0x80]])
        so_zero).so.addr.take 2 = [0x80, 0xFF] ∧
    (get_addr_from_args x86_64 (PyObj.tuple [PyObj.int 1, PyObj.bytes [0x01, 0x80]])
        so_zero).so.addr.take 2 ≠ [0x80, 0x01] := by
  rw [get_addr_int_pan x86_64 1 _ so_zero (by decide) (by decide), fill_addr_bytes2,
    addr16_of_chars_sign_extended x86_64 _ _ rfl (by decide)]
  decide

/-- The two-byte form where it is right: when plain `char` is unsigned, or the second byte
is below `0x80`, the address bytes 0..1 of the record are `[b1, b0]`. -/
theorem two_byte_form_plain (pf : Platform) (so : sockaddr_ieee802154) (p : Int)
    (b0 b1 : Byte) (hp0 : 0 ≤ p) (hp1 : p ≤ 0xFFFF)
    (h : pf.charSigned = false ∨ b1.val < 128) :
    (get_addr_from_args pf (PyObj.tuple [PyObj.int p, PyObj.bytes [b0, b1]]) so).ret = true ∧
    (get_addr_from_args pf (PyObj.tuple [PyObj.int p, PyObj.bytes [b0, b1]]) so).so.addr_type
      = 2 ∧
    (get_addr_from_args pf (PyObj.tuple [PyObj.int p, PyObj.bytes [b0, b1]]) so).so.addr.take 2
      = [b1, b0] := by
  rw [get_addr_int_pan pf p _ so hp0 hp1, fill_addr_bytes2, addr16_of_chars_plain pf b0 b1 h]
  have h0 := b0.isLt
  have h1 := b1.isLt
  refine ⟨rfl, rfl, ?_⟩
  simp only [write_bytes, List.length_cons, List.length_nil, List.cons_append,
    List.nil_append, List.take_succ_cons, List.take_zero, lo8, hi8, List.cons.injEq,
    and_true]
  constructor <;> apply Fin.ext <;> simp only <;> omega

/-- The two-byte form where it is wrong: when plain `char` is signed and the second byte is
`0x80` or above, the high byte of the wire value is `0xFF` whatever the first byte is. -/
theorem two_byte_form_sign_extended (pf : Platform) (so : sockaddr_ieee802154) (p : Int)
    (b0 b1 : Byte) (hp0 : 0 ≤ p) (hp1 : p ≤ 0xFFFF)
    (hs : pf.charSigned = true) (h : 128 ≤ b1.val) :
    (get_addr_from_args pf (PyObj.tuple [PyObj.int p, PyObj.bytes [b0, b1]]) so).so.addr.take 2
      = [b1, 0xFF] := by
  rw [get_addr_int_pan pf p _ so hp0 hp1, fill_addr_bytes2,
    addr16_of_chars_sign_extended pf b0 b1 hs h]
  have h1 := b1.isLt
  simp only [write_bytes, List.length_cons, List.length_nil, List.cons_append,
    List.nil_append, List.take_succ_cons, List.take_zero, lo8, hi8, List.cons.injEq,
    and_true]
  constructor <;> apply Fin.ext <;> simp <;> omega

/-- C3: byte-sequence length dispatch for lengths other than 2.  With a PAN identifier in
`0..=0xFFFF`, a byte sequence of length 8 gives `addr_type = 3` and the 8 address bytes equal
to the input; the empty sequence gives the very result of an absent address, with
`addr_type = 0`; every other length fails with the length message. -/
theorem bytes_length_dispatch (pf : Platform) (so : sockaddr_ieee802154) (p : Int)
    (s : List Byte) (hp0 : 0 ≤ p) (hp1 : p ≤ 0xFFFF) (hn : s.length ≠ 2) :
    (s.length = 8 →
      (get_addr_from_args pf (PyObj.tuple [PyObj.int p, PyObj.bytes s]) so).ret = true ∧
      (get_addr_from_args pf (PyObj.tuple [PyObj.int p, PyObj.bytes s]) so).err = Option.none ∧
      (get_addr_from_args pf (PyObj.tuple [PyObj.int p, PyObj.bytes s]) so).so.addr_type = 3 ∧
      (get_addr_from_args pf (PyObj.tuple [PyObj.int p, PyObj.bytes s]) so).so.addr.take 8
        = s) ∧
    (s.length = 0 →
      get_addr_from_args pf (PyObj.tuple [PyObj.int p, PyObj.bytes s]) so
        = get_addr_from_args pf (PyObj.tuple [PyObj.int p, PyObj.none]) so ∧
      (get_addr_from_args pf (PyObj.tuple [PyObj.int p, PyObj.bytes s]) so).ret = true ∧
      (get_addr_from_args pf (PyObj.tuple [PyObj.int p, PyObj.bytes s]) so).so.addr_type
        = 0) ∧
    (s.length ≠ 0 → s.length ≠ 8 →
      (get_addr_from_args pf (PyObj.tuple [PyObj.int p, PyObj.bytes s]) so).ret = false ∧
      (get_addr_from_args pf (PyObj.tuple [PyObj.int p, PyObj.bytes s]) so).err
        = some (PyErr.ValueError "second element must be of length 0, 2 or 8")) := by
  rw [get_addr_int_pan pf p _ so hp0 hp1, get_addr_int_pan pf p _ so hp0 hp1]
  refine ⟨fun h8 => ?_, fun h0 => ?_, fun h0 h8 => ?_⟩
  · rw [fill_addr_bytes8 pf p s so _ _ h8]
    refine ⟨rfl, rfl, rfl, ?_⟩
    have := take_write_bytes so.addr s
    rw [h8] at this
    exact this
  · have hs : s = [] := List.eq_nil_of_length_eq_zero h0
    subst hs
    rw [fill_addr_bytes0, fill_addr_none]
    exact ⟨rfl, rfl, rfl⟩
  · rw [fill_addr_bytes_bad pf p s so _ _ h0 hn h8]
    exact ⟨rfl, rfl⟩

/-- Witness of C3: `encode((1, bytes([1,2,3,4,5,6,7,8])))` gives `addr_type` Long and the
address bytes `[1,2,3,4,5,6,7,8]`. -/
theorem bytes_length_dispatch_witness :
    (get_addr_from_args x86_64 (PyObj.tuple [PyObj.int 1, PyObj.bytes [1, 2, 3, 4, 5, 6, 7, 8]])
        so_zero).so.addr_type = 3 ∧
    (get_addr_from_args x86_64 (PyObj.tuple [PyObj.int 1, PyObj.bytes [1, 2, 3, 4, 5, 6, 7, 8]])
        so_zero).so.addr.take 8 = [1, 2, 3, 4, 5, 6, 7, 8] :=
  have h := (bytes_length_dispatch x86_64 so_zero 1 [1, 2, 3, 4, 5, 6, 7, 8]
    (by decide) (by decide) (by decide)).1 rfl
  ⟨h.2.2.1, h.2.2.2⟩

/-- C4: the PAN identifier is checked before, and independently of, the address value.  For
an integer first element `p` and any second element `a`: when `p < 0` or `p > 0xFFFF` the
call fails with the PAN identifier message, and when `0 ≤ p ≤ 0xFFFF` it never does. -/
theorem pan_id_checked_first (pf : Platform) (so : sockaddr_ieee802154) (p : Int)
    (a : PyObj) :
    ((p < 0 ∨ p > 0xFFFF) →
      (get_addr_from_args pf (PyObj.tuple [PyObj.int p, a]) so).ret = false ∧
      (get_addr_from_args pf (PyObj.tuple [PyObj.int p, a]) so).err
        = some (PyErr.ValueError "first element of addr must be between 0 and 65535")) ∧
    ((0 ≤ p ∧ p ≤ 0xFFFF) →
      (get_addr_from_args pf (PyObj.tuple [PyObj.int p, a]) so).err
        ≠ some (PyErr.ValueError "first element of addr must be between 0 and 65535")) := by
  refine ⟨fun h => ?_, fun h => ?_⟩
  · rw [get_addr_int_pan_bad pf p a so h]
    exact ⟨rfl, rfl⟩
  · rw [get_addr_int_pan pf p a so h.1 h.2]
    exact fill_addr_err_ne_pan pf p a so _

/-- Witness of C4: `-1` and `65536` are rejected with the PAN identifier message although
the address is valid, `0` and `65535` are not rejected with it. -/
theorem pan_id_checked_first_witness :
    (get_addr_from_args x86_64 (PyObj.tuple [PyObj.int (-1), PyObj.int 5]) so_zero).err
      = some (PyErr.ValueError "first element of addr must be between 0 and 65535") ∧
    (get_addr_from_args x86_64 (PyObj.tuple [PyObj.int 65536, PyObj.int 5]) so_zero).err
      = some (PyErr.ValueError "first element of addr must be between 0 and 65535") ∧
    (get_addr_from_args x86_64 (PyObj.tuple [PyObj.int 0, PyObj.int 65536]) so_zero).err
      ≠ some (PyErr.ValueError "first element of addr must be between 0 and 65535") ∧
    (get_addr_from_args x86_64 (PyObj.tuple [PyObj.int 65535, PyObj.str (some [])]) so_zero).err
      ≠ some (PyErr.ValueError "first element of addr must be between 0 and 65535") :=
  ⟨((pan_id_checked_first x86_64 so_zero (-1) (PyObj.int 5)).1 (Or.inl (by decide))).2,
   ((pan_id_checked_first x86_64 so_zero 65536 (PyObj.int 5)).1 (Or.inr (by decide))).2,
   (pan_id_checked_first x86_64 so_zero 0 (PyObj.int 65536)).2 ⟨by decide, by decide⟩,
   (pan_id_checked_first x86_64 so_zero 65535 (PyObj.str (some []))).2 ⟨by decide, by decide⟩⟩

/-- C5 as stated fails: a pair whose first element is not an integer but an object that
`PyLong_AsLong` converts to `5` through its number protocol is accepted, although it is not of
the documented shape. -/
theorem acceptance_beyond_documented_shape :
    (get_addr_from_args x86_64
        (PyObj.tuple [PyObj.other (some 5) Option.none, PyObj.none]) so_zero).ret = true ∧
    ¬ documented_shape (PyObj.tuple [PyObj.other (some 5) Option.none, PyObj.none]) := by
  constructor
  · rw [get_addr_ret_iff]
    exact ⟨_, _, rfl, ⟨by decide, by decide⟩, trivial⟩
  · intro h
    exact h

/-- C5, amended: the call succeeds exactly on the pairs `(p, a)` where `p` is an integer in
`0..=65535`, or an object that is not an integer and that `PyLong_AsLong` converts to one in
that range, and `a` is `None`, an integer in `0..=65535` or a byte sequence of length 0, 2 or
8; every argument of the documented shape is among them.  An argument that is not a pair of
exactly two elements fails with the shape message, and with an accepted first element a
second element that is not `None`, an integer or a byte sequence fails with the type
message. -/
theorem acceptance_shape (pf : Platform) (so : sockaddr_ieee802154) (x : PyObj) :
    ((get_addr_from_args pf x so).ret = true ↔
      ∃ p a, x = PyObj.tuple [p, a] ∧ accepted_pan_id p ∧ accepted_address a) ∧
    (documented_shape x → (get_addr_from_args pf x so).ret = true) ∧
    ((∀ p a, x ≠ PyObj.tuple [p, a]) →
      (get_addr_from_args pf x so).ret = false ∧
      (get_addr_from_args pf x so).err
        = some (PyErr.ValueError "addr parameter must be a tuple of size 2.")) ∧
    (∀ p a, x = PyObj.tuple [p, a] → accepted_pan_id p →
      a ≠ PyObj.none → (∀ v, a ≠ PyObj.int v) → (∀ d, a ≠ PyObj.bytes d) →
      (get_addr_from_args pf x so).ret = false ∧
      (get_addr_from_args pf x so).err
        = some (PyErr.ValueError
            "second element of addr must be of type bytes, int or None")) := by
  refine ⟨get_addr_ret_iff pf x so, fun h => ?_, fun h => ?_, ?_⟩
  · exact (get_addr_ret_iff pf x so).mpr (documented_shape_accepted x h)
  · rw [get_addr_not_pair pf x so h]
    exact ⟨rfl, rfl⟩
  · rintro p a rfl hp hnone hint hbytes
    rw [get_addr_pair, if_neg ((PyLong_AsLong_range_iff pf p).mpr hp),
      fill_addr_type_error pf _ a so _ _ hnone hint hbytes]
    exact ⟨rfl, rfl⟩

/-- Witness of C5, amended: a one-element tuple, a three-element tuple and a value that is no
tuple fail with the shape message; a string address with PAN identifier `1` fails with the
type message. -/
theorem acceptance_shape_witness :
    (get_addr_from_args x86_64 (PyObj.tuple [PyObj.int 1]) so_zero).err
      = some (PyErr.ValueError "addr parameter must be a tuple of size 2.") ∧
    (get_addr_from_args x86_64 (PyObj.tuple [PyObj.int 1, PyObj.int 2, PyObj.int 3])
        so_zero).err
      = some (PyErr.ValueError "addr parameter must be a tuple of size 2.") ∧
    (get_addr_from_args x86_64 (PyObj.int 1) so_zero).err
      = some (PyErr.ValueError "addr parameter must be a tuple of size 2.") ∧
    (get_addr_from_args x86_64 (PyObj.tuple [PyObj.int 1, PyObj.str (some [0x61])]) so_zero).err
      = some (PyErr.ValueError "second element of addr must be of type bytes, int or None") ∧
    (get_addr_from_args x86_64 (PyObj.tuple [PyObj.int 1, PyObj.bytes []]) so_zero).ret
      = true :=
  ⟨((acceptance_shape x86_64 so_zero (PyObj.tuple [PyObj.int 1])).2.2.1
      (fun _ _ h => by simp at h)).2,
   ((acceptance_shape x86_64 so_zero
      (PyObj.tuple [PyObj.int 1, PyObj.int 2, PyObj.int 3])).2.2.1
      (fun _ _ h => by simp at h)).2,
   ((acceptance_shape x86_64 so_zero (PyObj.int 1)).2.2.1 (fun _ _ h => by simp at h)).2,
   ((acceptance_shape x86_64 so_zero (PyObj.tuple [PyObj.int 1, PyObj.str (some [0x61])])).2.2.2
      (PyObj.int 1) (PyObj.str (some [0x61])) rfl ⟨by decide, by decide⟩
      (fun h => by simp at h) (fun _ h => by simp at h) (fun _ h => by simp at h)).2,
   (acceptance_shape x86_64 so_zero (PyObj.tuple [PyObj.int 1, PyObj.bytes []])).2.1
      ⟨⟨by decide, by decide⟩, Or.inl rfl⟩⟩

/-- C8 (the code at the failing input): on the short-address range error path the function
returns without `Py_DECREF`; for the argument `(1, 65536)` the reference count of the
address value is one higher after the call than before. -/
theorem refcount_leak_on_short_overflow :
    (get_addr_from_args x86_64 (PyObj.tuple [PyObj.int 1, PyObj.int 65536]) so_zero).ret
      = false ∧
    (get_addr_from_args x86_64 (PyObj.tuple [PyObj.int 1, PyObj.int 65536]) so_zero).err
      = some (PyErr.ValueError
          "second element should be short address but value would overflow") ∧
    (get_addr_from_args x86_64 (PyObj.tuple [PyObj.int 1, PyObj.int 65536])
        so_zero).addro_refs = 1 := by
  rw [get_addr_int_pan x86_64 1 _ so_zero (by decide) (by decide),
    fill_addr_int_bad x86_64 1 65536 so_zero _ _ (by decide)]
  exact ⟨rfl, rfl, rfl⟩

/-- The reference count of the address value on every path: it is left one higher exactly
when the call fails with the short-address overflow message, and is unchanged on success and
on every other failure. -/
theorem addro_refs_balance (pf : Platform) (so : sockaddr_ieee802154) (x : PyObj) :
    (get_addr_from_args pf x so).addro_refs =
      if (get_addr_from_args pf x so).err = some (PyErr.ValueError msg_short) ∧
          (get_addr_from_args pf x so).ret = false
      then 1 else 0 := by
  by_cases hx : ∃ p a, x = PyObj.tuple [p, a]
  · obtain ⟨p, a, rfl⟩ := hx
    rw [get_addr_pair]
    by_cases hp : (PyLong_AsLong pf p).1 < 0 ∨ (PyLong_AsLong pf p).1 > 65535
    · rw [if_pos hp]
      simp [msg_short, msg_pan_id]
    · rw [if_neg hp, fill_addr_refs]
      rfl
  · rw [get_addr_not_pair pf x so (fun p a h => hx ⟨p, a, h⟩)]
    simp [msg_short, msg_shape]

/-- C9 as stated fails: the argument `(1, None)` is accepted from two prior contents of the
record that differ in the address bytes, and the two records produced differ. -/
theorem record_keeps_prior_bytes :
    (get_addr_from_args x86_64 (PyObj.tuple [PyObj.int 1, PyObj.none]) so_zero).ret = true ∧
    (get_addr_from_args x86_64 (PyObj.tuple [PyObj.int 1, PyObj.none]) so_ones).ret = true ∧
    (get_addr_from_args x86_64 (PyObj.tuple [PyObj.int 1, PyObj.none]) so_zero).so
      ≠ (get_addr_from_args x86_64 (PyObj.tuple [PyObj.int 1, PyObj.none]) so_ones).so := by
  rw [get_addr_int_pan x86_64 1 _ so_zero (by decide) (by decide),
    get_addr_int_pan x86_64 1 _ so_ones (by decide) (by decide), fill_addr_none, fill_addr_none]
  refine ⟨rfl, rfl, ?_⟩
  simp [so_zero, so_ones]

/-- C9, amended: whether the call succeeds and the error it leaves are determined by the
argument alone, and on success so are `family`, `addr_type`, `pan_id` and the address bytes
that carry the address for the mode (none in None mode, bytes 0..1 in Short mode, all 8 in
Long mode); the remaining bytes of the address overlay keep their prior contents. -/
theorem record_determined_by_argument (pf : Platform) (x : PyObj)
    (so1 so2 : sockaddr_ieee802154) :
    (get_addr_from_args pf x so1).ret = (get_addr_from_args pf x so2).ret ∧
    (get_addr_from_args pf x so1).err = (get_addr_from_args pf x so2).err ∧
    ((get_addr_from_args pf x so1).ret = true →
      (get_addr_from_args pf x so1).so.family = (get_addr_from_args pf x so2).so.family ∧
      (get_addr_from_args pf x so1).so.addr_type = (get_addr_from_args pf x so2).so.addr_type ∧
      (get_addr_from_args pf x so1).so.pan_id = (get_addr_from_args pf x so2).so.pan_id ∧
      (get_addr_from_args pf x so1).so.addr.take
          (addr_len (get_addr_from_args pf x so1).so.addr_type)
        = (get_addr_from_args pf x so2).so.addr.take
          (addr_len (get_addr_from_args pf x so1).so.addr_type) ∧
      (get_addr_from_args pf x so1).so.addr.drop
          (addr_len (get_addr_from_args pf x so1).so.addr_type)
        = so1.addr.drop (addr_len (get_addr_from_args pf x so1).so.addr_type)) := by
  by_cases hx : ∃ p a, x = PyObj.tuple [p, a]
  · obtain ⟨p, a, rfl⟩ := hx
    rw [get_addr_pair, get_addr_pair]
    by_cases hp : (PyLong_AsLong pf p).1 < 0 ∨ (PyLong_AsLong pf p).1 > 65535
    · rw [if_pos hp, if_pos hp]
      simp
    · rw [if_neg hp, if_neg hp]
      have h := fill_addr_prior pf (PyLong_AsLong pf p).1 a so1 so2 (PyLong_AsLong pf p).2
        (Py_INCREF 0)
      exact ⟨h.1, h.2.1, fun hr => ⟨h.2.2.1, (h.2.2.2.2 hr).1, h.2.2.2.1, (h.2.2.2.2 hr).2⟩⟩
  · have hx' : ∀ p a, x ≠ PyObj.tuple [p, a] := fun p a h => hx ⟨p, a, h⟩
    rw [get_addr_not_pair pf x so1 hx', get_addr_not_pair pf x so2 hx']
    simp

/-- Witness of C9, amended: for the short address `(0x1234, 0xABCD)` the two records made
from the prior contents `so_zero` and `so_ones` agree in `addr_type`, in the PAN bytes and in
the address bytes 0..1, and the first keeps the prior bytes 2..7. -/
theorem record_determined_by_argument_witness :
    (get_addr_from_args x86_64 (PyObj.tuple [PyObj.int 0x1234, PyObj.int 0xABCD])
        so_zero).so.addr_type
      = (get_addr_from_args x86_64 (PyObj.tuple [PyObj.int 0x1234, PyObj.int 0xABCD])
        so_ones).so.addr_type ∧
    (get_addr_from_args x86_64 (PyObj.tuple [PyObj.int 0x1234, PyObj.int 0xABCD])
        so_zero).so.pan_id
      = (get_addr_from_args x86_64 (PyObj.tuple [PyObj.int 0x1234, PyObj.int 0xABCD])
        so_ones).so.pan_id ∧
    (get_addr_from_args x86_64 (PyObj.tuple [PyObj.int 0x1234, PyObj.int 0xABCD])
        so_zero).so.addr.take 2
      = (get_addr_from_args x86_64 (PyObj.tuple [PyObj.int 0x1234, PyObj.int 0xABCD])
        so_ones).so.addr.take 2 ∧
    (get_addr_from_args x86_64 (PyObj.tuple [PyObj.int 0x1234, PyObj.int 0xABCD])
        so_zero).so.addr.drop 2 = [0, 0, 0, 0, 0, 0] :=
  have hr : (get_addr_from_args x86_64 (PyObj.tuple [PyObj.int 0x1234, PyObj.int 0xABCD])
      so_zero).ret = true := by decide
  have h := (record_determined_by_argument x86_64
    (PyObj.tuple [PyObj.int 0x1234, PyObj.int 0xABCD]) so_zero so_ones).2.2 hr
  ⟨h.2.1, h.2.2.1, h.2.2.2.1, h.2.2.2.2⟩

/-- C10 (the code at the failing input): when `socket()` fails, `PyWPANSocket_init` leaves
the zeroed `sock_fd` as it is, and `PyWPANSocket_dealloc` closes descriptor `0`, which the
instance never acquired. -/
theorem dealloc_closes_fd_zero_after_failed_init :
    (PyWPANSocket_init kernel_no_wpan PyType_GenericAlloc []).ret = -1 ∧
    (PyWPANSocket_init kernel_no_wpan PyType_GenericAlloc []).err
      = some (PyErr.OSError 97) ∧
    socket_lifetime kernel_no_wpan
      = [SysCall.socket AF_IEEE802154 SOCK_DGRAM 0, SysCall.close 0] := by
  refine ⟨rfl, rfl, rfl⟩

/-- The system calls of one object lifetime, for every kernel: one `socket` call, then one
`close` call, on the descriptor `socket` returned when that is not negative and on
descriptor `0` when it is. -/
theorem socket_lifetime_trace (k : Kernel) :
    socket_lifetime k =
      [SysCall.socket AF_IEEE802154 SOCK_DGRAM 0,
       SysCall.close (if k.ret (SysCall.socket AF_IEEE802154 SOCK_DGRAM 0) < 0 then 0
                      else k.ret (SysCall.socket AF_IEEE802154 SOCK_DGRAM 0))] := by
  unfold socket_lifetime PyWPANSocket_init PyWPANSocket_dealloc PyType_GenericAlloc
  by_cases h : k.ret (SysCall.socket AF_IEEE802154 SOCK_DGRAM 0) < 0
  · simp [h]
  · simp [h]

/-- The system calls of `sendto` for every argument tuple, also one that does not hold two
objects: the trace is left as it is or grows by exactly one `sendto` call on the descriptor
of the socket. -/
theorem sendto_trace_cases (pf : Platform) (k : Kernel) (self : PyWPANSocketObject)
    (args : PyObj) (sa : sockaddr_ieee802154) (trace : List SysCall) :
    (PyWPANSocket_sendto pf k self args sa trace).trace = trace ∨
    ∃ buf dest, (PyWPANSocket_sendto pf k self args sa trace).trace
      = trace ++ [SysCall.sendto self.sock_fd buf buf.length 0 dest] := by
  unfold PyWPANSocket_sendto
  split
  · exact Or.inl rfl
  · rename_i buf addr _
    simp only
    by_cases hr : (!(get_addr_from_args pf addr sa).ret) = true
    · rw [if_pos hr]
      exact Or.inl rfl
    · rw [if_neg hr]
      refine Or.inr ⟨buf, (get_addr_from_args pf addr sa).so, ?_⟩
      split <;> rfl

/-- C7: round trip through the decoder of the specification.  For every valid `WpanAddress`
(mode None, Short or Long, PAN identifier in `0..=65535`), the argument that describes it is
accepted and decoding the record gives the address back; a zero-length byte sequence as
address value decodes to the None-mode address as well. -/
theorem decode_encode_round_trip (pf : Platform) (so : sockaddr_ieee802154) (a : WpanAddress)
    (hv : a.valid) :
    (get_addr_from_args pf a.toArg so).ret = true ∧
    decode (get_addr_from_args pf a.toArg so).so = some a ∧
    (get_addr_from_args pf (PyObj.tuple [PyObj.int a.pan_id, PyObj.bytes []]) so).ret = true ∧
    decode (get_addr_from_args pf (PyObj.tuple [PyObj.int a.pan_id, PyObj.bytes []]) so).so
      = some ⟨a.pan_id, AddressValue.None⟩ := by
  obtain ⟨pan, val⟩ := a
  obtain ⟨hp, hval⟩ := hv
  simp only at hp hval
  have hp0 : (0 : Int) ≤ (pan : Int) := Int.ofNat_nonneg pan
  have hp1 : (pan : Int) ≤ 0xFFFF := by omega
  have hpan := read_le16_bytes pan hp []
  simp only [WpanAddress.toArg]
  rw [get_addr_int_pan pf pan _ so hp0 hp1, get_addr_int_pan pf pan _ so hp0 hp1,
    fill_addr_bytes0, fill_addr_none]
  refine ⟨?_, ?_, rfl, ?_⟩
  · cases val with
    | None => rw [fill_addr_none]
    | Short v =>
      rw [fill_addr_int_ok pf pan v so _ _ (Int.ofNat_nonneg v) (by simp only at hval; omega)]
    | Long bs => rw [fill_addr_bytes8 pf pan bs so _ _ hval]
  · cases val with
    | None =>
      rw [fill_addr_none]
      simp [decode, PyWPAN_ADDR_NONE, hpan]
    | Short v =>
      have hv1 : v ≤ 0xFFFF := hval
      rw [fill_addr_int_ok pf pan v so _ _ (Int.ofNat_nonneg v) (by omega)]
      have hvv := read_le16_bytes v hv1 (List.drop 2 so.addr)
      simp [decode, PyWPAN_ADDR_SHORT, hpan, write_bytes, hvv]
    | Long bs =>
      have hl : bs.length = 8 := hval
      rw [fill_addr_bytes8 pf pan bs so _ _ hl]
      have ht : List.take 8 (write_bytes so.addr bs) = bs := by
        have := take_write_bytes so.addr bs
        rw [hl] at this
        exact this
      simp [decode, PyWPAN_ADDR_LONG, hpan, ht]
  · simp [decode, PyWPAN_ADDR_NONE, hpan]

/-- Witness of C7: the short address `0xABCD` in PAN `0x1234` and the long address
`[1,2,3,4,5,6,7,8]` in PAN `1` survive the round trip on a big-endian platform with signed
`char`. -/
theorem decode_encode_round_trip_witness :
    decode (get_addr_from_args ⟨true, true, true⟩
        (WpanAddress.toArg ⟨0x1234, AddressValue.Short 0xABCD⟩) so_ones).so
      = some ⟨0x1234, AddressValue.Short 0xABCD⟩ ∧
    decode (get_addr_from_args ⟨true, true, true⟩
        (WpanAddress.toArg ⟨1, AddressValue.Long [1, 2, 3, 4, 5, 6, 7, 8]⟩) so_ones).so
      = some ⟨1, AddressValue.Long [1, 2, 3, 4, 5, 6, 7, 8]⟩ :=
  ⟨(decode_encode_round_trip ⟨true, true, true⟩ so_ones ⟨0x1234, AddressValue.Short 0xABCD⟩
      ⟨by decide, by decide⟩).2.1,
   (decode_encode_round_trip ⟨true, true, true⟩ so_ones
      ⟨1, AddressValue.Long [1, 2, 3, 4, 5, 6, 7, 8]⟩ ⟨by decide, rfl⟩).2.1⟩

end PyWPAN
